import Mathlib

/-!
Verification development for the GPU image-resource core of
`framework/core/image.cpp` (namespace `vkb::core`).

Handles and allocator tokens are modelled as `Option Nat`, with `none`
playing the role of `VK_NULL_HANDLE`.  `VkResult` is modelled as `Int`
with `0 = VK_SUCCESS`.  The external memory allocator (VMA) is an
abstract record of functions, and every operation additionally returns
the list of allocator calls it issued, so that call-counting and
call-ordering properties can be stated.
-/

namespace VkbImage

/-- Model of `VkExtent3D`: width, height, depth (all `uint32_t` in the source). -/
structure VkExtent3D where
  width : Nat
  height : Nat
  depth : Nat
deriving DecidableEq, Repr

/-- Model of `VkImageType`: the three dimensionality tags used by the module. -/
inductive VkImageType where
  | type_1d
  | type_2d
  | type_3d
deriving DecidableEq, Repr

/-- Error kinds surfaced by construction, named as in the specification:
`invalidExtent` models `throw std::runtime_error("No image type found.")`
from `find_image_type`; `assertionFailure` models a failed `assert`;
`allocationFailed r` models `throw VulkanException{result, "Cannot create Image"}`. -/
inductive ImageError where
  | invalidExtent
  | assertionFailure
  | allocationFailed (code : Int)
deriving DecidableEq, Repr

/-- Value of `VK_IMAGE_USAGE_TRANSIENT_ATTACHMENT_BIT` (0x00000040). -/
def VK_IMAGE_USAGE_TRANSIENT_ATTACHMENT_BIT : Nat := 0x40

/-- Value of `VK_MEMORY_PROPERTY_LAZILY_ALLOCATED_BIT` (0x00000010). -/
def VK_MEMORY_PROPERTY_LAZILY_ALLOCATED_BIT : Nat := 0x10

/-- Value of `VK_SAMPLE_COUNT_1_BIT` (0x00000001). -/
def VK_SAMPLE_COUNT_1_BIT : Nat := 1

/-- Model of `vkb::find_image_type` (image.cpp, anonymous namespace): count a
dimension for `width >= 1`, one for `height >= 1`, one for `depth > 1`,
then map the count 1/2/3 to the image type and fail otherwise. -/
def find_image_type (extent : VkExtent3D) : Except ImageError VkImageType :=
  let dim_num : Nat :=
    (if extent.width ≥ 1 then 1 else 0) +
    (if extent.height ≥ 1 then 1 else 0) +
    (if extent.depth > 1 then 1 else 0)
  match dim_num with
  | 1 => Except.ok VkImageType.type_1d
  | 2 => Except.ok VkImageType.type_2d
  | 3 => Except.ok VkImageType.type_3d
  | _ => Except.error ImageError.invalidExtent

/-- The fields of `VkImageCreateInfo` that the owning constructor fills in. -/
structure VkImageCreateInfo where
  imageType : VkImageType
  format : Nat
  extent : VkExtent3D
  mipLevels : Nat
  arrayLayers : Nat
  samples : Nat
  tiling : Nat
  usage : Nat
deriving DecidableEq, Repr

/-- Model of `VmaAllocationCreateInfo`: the constructor zero-initialises it and then
sets `usage`, and `preferredFlags` only for transient attachments. -/
structure VmaAllocationCreateInfo where
  usage : Nat
  preferredFlags : Nat
deriving DecidableEq, Repr

/-- The subresource fields the module writes (`mipLevel`, `arrayLayer`). -/
structure VkImageSubresource where
  mipLevel : Nat
  arrayLayer : Nat
deriving DecidableEq, Repr

/-- One observable call into the memory allocator. -/
inductive AllocCall where
  | create_image (image_info : VkImageCreateInfo) (memory_info : VmaAllocationCreateInfo)
  | destroy_image (handle : Option Nat) (memory : Option Nat)
  | map_memory (memory : Option Nat)
  | unmap_memory (memory : Option Nat)
deriving DecidableEq, Repr

/-- Abstract model of the VMA allocator: `create_image` yields a status
together with the written-back handle and allocation, `map_memory` yields
a status and a pointer. -/
structure AllocatorModel where
  create_image : VkImageCreateInfo → VmaAllocationCreateInfo → Int × Option Nat × Option Nat
  map_memory : Option Nat → Int × Nat

/-- The state of a `vkb::core::Image`.  `views` holds the identities of the
registered `ImageView` back-references (an identity-keyed set in the source). -/
structure Image where
  handle : Option Nat
  memory : Option Nat
  type : VkImageType
  extent : VkExtent3D
  format : Nat
  sample_count : Nat
  usage : Nat
  tiling : Nat
  subresource : VkImageSubresource
  mapped_data : Option Nat
  mapped : Bool
  views : List Nat
deriving DecidableEq, Repr

/-- The `VkImageCreateInfo` the owning constructor builds. -/
def mk_image_info (type : VkImageType) (extent : VkExtent3D) (format : Nat)
    (image_usage : Nat) (sample_count : Nat) (mip_levels : Nat)
    (array_layers : Nat) (tiling : Nat) : VkImageCreateInfo :=
  { imageType := type, format := format, extent := extent,
    mipLevels := mip_levels, arrayLayers := array_layers,
    samples := sample_count, tiling := tiling, usage := image_usage }

/-- The `VmaAllocationCreateInfo` the owning constructor builds:
zero-initialised, `usage` set from the hint, and the lazily-allocated
preference set exactly when the usage contains the transient-attachment bit. -/
def mk_memory_info (image_usage : Nat) (memory_usage : Nat) : VmaAllocationCreateInfo :=
  { usage := memory_usage,
    preferredFlags :=
      if image_usage &&& VK_IMAGE_USAGE_TRANSIENT_ATTACHMENT_BIT ≠ 0 then
        VK_MEMORY_PROPERTY_LAZILY_ALLOCATED_BIT
      else 0 }

/-- Owning constructor `Image::Image(Device &, const VkExtent3D &, ...)`:
derive the type from the extent (this runs in the member-initialiser list,
before the asserts), assert `mip_levels > 0` and `array_layers > 0`, build
the create-info records, and ask the allocator for handle and allocation;
a non-success status is rethrown as a construction failure carrying it. -/
def Image.mk_owning (alloc : AllocatorModel) (extent : VkExtent3D) (format : Nat)
    (image_usage : Nat) (memory_usage : Nat) (sample_count : Nat)
    (mip_levels : Nat) (array_layers : Nat) (tiling : Nat) :
    Except ImageError (Image × List AllocCall) :=
  match find_image_type extent with
  | Except.error e => Except.error e
  | Except.ok type =>
    if 0 < mip_levels then
      if 0 < array_layers then
        match alloc.create_image
            (mk_image_info type extent format image_usage sample_count
              mip_levels array_layers tiling)
            (mk_memory_info image_usage memory_usage) with
        | (result, h, m) =>
          if result = 0 then
            Except.ok ({ handle := h, memory := m, type := type,
                         extent := extent, format := format,
                         sample_count := sample_count, usage := image_usage,
                         tiling := tiling,
                         subresource := { mipLevel := mip_levels,
                                          arrayLayer := array_layers },
                         mapped_data := none, mapped := false, views := [] },
              [AllocCall.create_image
                (mk_image_info type extent format image_usage sample_count
                  mip_levels array_layers tiling)
                (mk_memory_info image_usage memory_usage)])
          else
            Except.error (ImageError.allocationFailed result)
      else Except.error ImageError.assertionFailure
    else Except.error ImageError.assertionFailure

/-- Adopting constructor `Image::Image(Device &, VkImage, ...)`: record the
handle, derive the type from the extent (in the member-initialiser list, so
an unclassifiable extent fails the same way as in owning construction),
default `sample_count` to `VK_SAMPLE_COUNT_1_BIT` and the subresource to
`(1, 1)`.  No allocator call is made.  Modelled from the spec: the class
declaration (image.h, not in the shown sources) default-initialises
`memory` to the null token and `mapped_data`/`mapped` to null/false;
the spec states the adopting constructor leaves the allocation null. -/
def Image.mk_adopted (handle : Option Nat) (extent : VkExtent3D) (format : Nat)
    (image_usage : Nat) : Except ImageError (Image × List AllocCall) :=
  match find_image_type extent with
  | Except.error e => Except.error e
  | Except.ok type =>
    Except.ok ({ handle := handle, memory := none, type := type,
                 extent := extent, format := format,
                 sample_count := VK_SAMPLE_COUNT_1_BIT,
                 usage := image_usage, tiling := 0,
                 subresource := { mipLevel := 1, arrayLayer := 1 },
                 mapped_data := none, mapped := false, views := [] },
      [])

/-- Model of `Image::map`: if `mapped_data` is null, call the allocator's
`map_memory` (through `VK_CHECK`) and set `mapped`; otherwise return the
existing pointer with no allocator call.  Modelled from the spec:
`VK_CHECK` (defined outside the shown sources) makes a map failure fatal,
surfaced through the error channel, so a failed map yields no new state. -/
def Image.map (alloc : AllocatorModel) (img : Image) :
    Except Int (Image × Nat × List AllocCall) :=
  match img.mapped_data with
  | some p => Except.ok (img, p, [])
  | none =>
      let (result, ptr) := alloc.map_memory img.memory
      if result = 0 then
        Except.ok ({ img with mapped_data := some ptr, mapped := true }, ptr,
                   [AllocCall.map_memory img.memory])
      else
        Except.error result

/-- Model of `Image::unmap`: a no-op when not mapped; otherwise call the allocator's
`unmap_memory` and clear `mapped_data` and `mapped`. -/
def Image.unmap (img : Image) : Image × List AllocCall :=
  if img.mapped then
    ({ img with mapped_data := none, mapped := false },
     [AllocCall.unmap_memory img.memory])
  else
    (img, [])

/-- Model of `Image::~Image`: release nothing when `handle` or `memory` is the null
sentinel; otherwise `unmap()` (a no-op when not mapped) followed by exactly
one `destroy_image` with the stored handle/allocation pair. -/
def Image.destructor (img : Image) : List AllocCall :=
  if img.handle ≠ none ∧ img.memory ≠ none then
    (Image.unmap img).2 ++ [AllocCall.destroy_image img.handle img.memory]
  else
    []

/-- Result of the move constructor `Image::Image(Image &&)`: the newly
constructed destination, the source as the constructor leaves it, and the
list of views on which `set_image(*this)` was invoked (in the loop at the
end of the constructor body). -/
structure MoveResult where
  dst : Image
  src : Image
  rebound : List Nat
deriving DecidableEq, Repr

/-- Move constructor `Image::Image(Image &&other)`.  The member-initialiser
list copies `handle`, `memory`, `type`, `extent`, `format`, `sample_count`,
`usage`, `tiling`, `subresource`, `mapped_data` and `mapped` from `other`;
it does NOT mention `views`, so the destination's view set is
default-constructed empty (and `other.views` is left untouched).  The body
nulls the source's `handle`, `memory`, `mapped_data` and `mapped`, then
iterates over the destination's own `views` member calling `set_image`. -/
def Image.moveCtor (other : Image) : MoveResult :=
  let dst : Image :=
    { handle := other.handle, memory := other.memory, type := other.type,
      extent := other.extent, format := other.format,
      sample_count := other.sample_count, usage := other.usage,
      tiling := other.tiling, subresource := other.subresource,
      mapped_data := other.mapped_data, mapped := other.mapped,
      views := [] }
  let src : Image :=
    { other with handle := none, memory := none, mapped_data := none,
                 mapped := false }
  { dst := dst, src := src, rebound := dst.views }

/-- Modelled from the spec: views register themselves in the image's
back-reference set (`get_views().emplace(...)` from the `ImageView`
constructor, outside the shown sources); the set is keyed by identity, so
re-registration is idempotent. -/
def Image.registerView (img : Image) (v : Nat) : Image :=
  if v ∈ img.views then img else { img with views := img.views ++ [v] }

/-- Modelled from the spec: views deregister themselves from the image's
back-reference set on their own destruction. -/
def Image.unregisterView (img : Image) (v : Nat) : Image :=
  { img with views := img.views.filter (fun w => w ≠ v) }

/-- The dimension count exactly as the specification words it: width
contributes if ≥ 1, height contributes if ≥ 1, depth contributes only
if > 1. -/
def dimCountSpec (w h d : Nat) : Nat :=
  (if 1 ≤ w then 1 else 0) + (if 1 ≤ h then 1 else 0) + (if 1 < d then 1 else 0)

/-- Iterating `map()` `n` times with no intervening `unmap()`:
returns the final state, the list of pointers handed back to the caller,
and the concatenated allocator-call trace. -/
def Image.mapN (alloc : AllocatorModel) (img : Image) :
    Nat → Except Int (Image × List Nat × List AllocCall)
  | 0 => Except.ok (img, [], [])
  | n + 1 =>
    match Image.map alloc img with
    | Except.error e => Except.error e
    | Except.ok (img1, p, c1) =>
      match Image.mapN alloc img1 n with
      | Except.error e => Except.error e
      | Except.ok (img2, ps, cs) => Except.ok (img2, p :: ps, c1 ++ cs)

/-- The states of an image reachable through the exposed operations:
owning construction, adopting construction, a successful `map`, `unmap`,
being the destination or the source of a move, and view (de)registration. -/
inductive Reachable (alloc : AllocatorModel) : Image → Prop where
  | owning (extent : VkExtent3D) (format image_usage memory_usage sample_count
      mip_levels array_layers tiling : Nat) (img : Image) (calls : List AllocCall) :
      Image.mk_owning alloc extent format image_usage memory_usage sample_count
        mip_levels array_layers tiling = Except.ok (img, calls) →
      Reachable alloc img
  | adopted (handle : Option Nat) (extent : VkExtent3D) (format image_usage : Nat)
      (img : Image) (calls : List AllocCall) :
      Image.mk_adopted handle extent format image_usage = Except.ok (img, calls) →
      Reachable alloc img
  | map_ok (img img' : Image) (p : Nat) (calls : List AllocCall) :
      Reachable alloc img →
      Image.map alloc img = Except.ok (img', p, calls) →
      Reachable alloc img'
  | unmap_step (img : Image) :
      Reachable alloc img → Reachable alloc (Image.unmap img).1
  | move_dst (img : Image) :
      Reachable alloc img → Reachable alloc (Image.moveCtor img).dst
  | move_src (img : Image) :
      Reachable alloc img → Reachable alloc (Image.moveCtor img).src
  | register (img : Image) (v : Nat) :
      Reachable alloc img → Reachable alloc (Image.registerView img v)
  | unregister (img : Image) (v : Nat) :
      Reachable alloc img → Reachable alloc (Image.unregisterView img v)

/-- A concrete adopted 2D image carrying one registered view (identity 7),
used as the failing input for the move-rebind property. -/
def imgWithView : Image :=
  Image.registerView
    { handle := some 11, memory := none, type := VkImageType.type_2d,
      extent := { width := 1920, height := 1080, depth := 1 }, format := 44,
      sample_count := 1, usage := 16, tiling := 0,
      subresource := { mipLevel := 1, arrayLayer := 1 },
      mapped_data := none, mapped := false, views := [] } 7

/-- A concrete allocator: creation succeeds with handle 1 and allocation 2,
mapping allocation 2 succeeds with pointer 99, and mapping the null
allocation fails with status -1. -/
def allocOk : AllocatorModel :=
  { create_image := fun _ _ => (0, some 1, some 2),
    map_memory := fun m => match m with
      | some 2 => (0, 99)
      | _ => (-1, 0) }

/-- A concrete allocator whose `create_image` refuses with status -2
(`VK_ERROR_OUT_OF_DEVICE_MEMORY`). -/
def allocFail : AllocatorModel :=
  { create_image := fun _ _ => (-2, none, none),
    map_memory := fun _ => (-1, 0) }

/-- A concrete mapped owning image (handle 1, allocation 2, mapped at
pointer 99), used to instantiate destructor properties. -/
def imgMappedOwning : Image :=
  { handle := some 1, memory := some 2, type := VkImageType.type_2d,
    extent := { width := 64, height := 64, depth := 1 }, format := 44,
    sample_count := 1, usage := 16, tiling := 1,
    subresource := { mipLevel := 1, arrayLayer := 1 },
    mapped_data := some 99, mapped := true, views := [] }

/-- C5: `find_image_type` counts a dimension for width ≥ 1, one for
height ≥ 1 and one for depth > 1 (depth = 1 contributes nothing), maps the
counts 1/2/3 to 1D/2D/3D and fails with `InvalidExtent` on any other count;
in particular (W,0,0) with W ≥ 1 is 1D, (W,H,1) with W,H ≥ 1 is 2D,
(W,H,D) with W,H ≥ 1 and D > 1 is 3D, and (0,0,0) fails. -/
theorem C5_find_image_type (w h d : Nat) :
    (find_image_type { width := w, height := h, depth := d } =
        Except.ok VkImageType.type_1d ↔ dimCountSpec w h d = 1) ∧
    (find_image_type { width := w, height := h, depth := d } =
        Except.ok VkImageType.type_2d ↔ dimCountSpec w h d = 2) ∧
    (find_image_type { width := w, height := h, depth := d } =
        Except.ok VkImageType.type_3d ↔ dimCountSpec w h d = 3) ∧
    (find_image_type { width := w, height := h, depth := d } =
        Except.error ImageError.invalidExtent ↔ dimCountSpec w h d = 0) ∧
    (1 ≤ w → find_image_type { width := w, height := 0, depth := 0 } =
        Except.ok VkImageType.type_1d) ∧
    (1 ≤ w → 1 ≤ h → find_image_type { width := w, height := h, depth := 1 } =
        Except.ok VkImageType.type_2d) ∧
    (1 ≤ w → 1 ≤ h → 1 < d → find_image_type { width := w, height := h, depth := d } =
        Except.ok VkImageType.type_3d) ∧
    (find_image_type { width := 0, height := 0, depth := 0 } =
        Except.error ImageError.invalidExtent) := by
  by_cases hw : 1 ≤ w <;> by_cases hh : 1 ≤ h <;> by_cases hd : 1 < d <;>
    simp [find_image_type, dimCountSpec, hw, hh, hd]

/-- Witness for C5 at the concrete extent (1024, 1024, 1). -/
theorem C5_find_image_type_witness :
    find_image_type { width := 1024, height := 1024, depth := 1 } =
      Except.ok VkImageType.type_2d :=
  (C5_find_image_type 1024 1024 1).2.2.2.2.2.1 (by decide) (by decide)

/-- C3: the destructor releases nothing when the handle or the allocation
is the null sentinel; otherwise its allocator-call trace is the unmap call
(present exactly when the image is mapped) strictly followed by exactly one
`destroy_image` with the stored handle/allocation pair. -/
theorem C3_destructor (img : Image) :
    (img.handle = none ∨ img.memory = none → Image.destructor img = []) ∧
    (img.handle ≠ none → img.memory ≠ none →
      Image.destructor img =
        (if img.mapped then [AllocCall.unmap_memory img.memory] else []) ++
        [AllocCall.destroy_image img.handle img.memory]) := by
  constructor
  · intro hnull
    rcases hnull with hnull | hnull <;>
      simp [Image.destructor, hnull]
  · intro h1 h2
    by_cases hm : img.mapped <;>
      simp [Image.destructor, Image.unmap, h1, h2, hm]

/-- Witness for C3 at a concrete mapped owning image: the unmap call
precedes the single destroy call. -/
theorem C3_destructor_witness :
    Image.destructor imgMappedOwning =
      [AllocCall.unmap_memory (some 2), AllocCall.destroy_image (some 1) (some 2)] := by
  have h := (C3_destructor imgMappedOwning).2 (by simp [imgMappedOwning])
    (by simp [imgMappedOwning])
  simpa [imgMappedOwning] using h

/-- C1: evaluated at an image with one registered view (identity 7),
move-construction invokes `set_image` on no view at all: the rebind loop
iterates the destination's `views` member, which is default-constructed
empty because the move constructor's member-initialiser list omits
`views`; the source still carries the view afterwards.  This contradicts
the constructor's own comment ("Update image views references to this
image to avoid dangling pointers"). -/
theorem C1_move_rebinds_no_view :
    imgWithView.views = [7] ∧
    (Image.moveCtor imgWithView).rebound = [] ∧
    (Image.moveCtor imgWithView).dst.views = [] ∧
    (Image.moveCtor imgWithView).src.views = [7] := by
  refine ⟨rfl, rfl, rfl, rfl⟩

/-- C4 counterexample: at an image whose view set is [7], the
move-constructed destination's view set is empty, not the source's prior
view set, so move-construction does not transfer every field. -/
theorem C4_counterexample :
    ¬ ((Image.moveCtor imgWithView).dst.views = imgWithView.views) := by
  decide

/-- C4 (amended): move-construction transfers handle, allocation, type,
extent, format, sample_count, usage, tiling, subresource, mapped_data and
mapped to the destination, but not the view set: the destination's view
set is empty and the source retains its views; afterwards the source's
handle and allocation are the null sentinel, its mapped_ptr is null, its
mapped flag is false, and no other field of the source is modified. -/
theorem C4_move_transfers_fields (img : Image) :
    ((Image.moveCtor img).dst.handle = img.handle ∧
     (Image.moveCtor img).dst.memory = img.memory ∧
     (Image.moveCtor img).dst.type = img.type ∧
     (Image.moveCtor img).dst.extent = img.extent ∧
     (Image.moveCtor img).dst.format = img.format ∧
     (Image.moveCtor img).dst.sample_count = img.sample_count ∧
     (Image.moveCtor img).dst.usage = img.usage ∧
     (Image.moveCtor img).dst.tiling = img.tiling ∧
     (Image.moveCtor img).dst.subresource = img.subresource ∧
     (Image.moveCtor img).dst.mapped_data = img.mapped_data ∧
     (Image.moveCtor img).dst.mapped = img.mapped) ∧
    (Image.moveCtor img).dst.views = [] ∧
    ((Image.moveCtor img).src.handle = none ∧
     (Image.moveCtor img).src.memory = none ∧
     (Image.moveCtor img).src.mapped_data = none ∧
     (Image.moveCtor img).src.mapped = false) ∧
    ((Image.moveCtor img).src.type = img.type ∧
     (Image.moveCtor img).src.extent = img.extent ∧
     (Image.moveCtor img).src.format = img.format ∧
     (Image.moveCtor img).src.sample_count = img.sample_count ∧
     (Image.moveCtor img).src.usage = img.usage ∧
     (Image.moveCtor img).src.tiling = img.tiling ∧
     (Image.moveCtor img).src.subresource = img.subresource ∧
     (Image.moveCtor img).src.views = img.views) := by
  simp [Image.moveCtor]

/-- Inversion for a successful owning construction: the extent classified,
the level/layer asserts passed, the allocator call succeeded, and the
resulting state and call trace are fully determined. -/
theorem mk_owning_ok_inv (alloc : AllocatorModel) (extent : VkExtent3D)
    (format image_usage memory_usage sample_count mip_levels array_layers tiling : Nat)
    (img : Image) (calls : List AllocCall)
    (h : Image.mk_owning alloc extent format image_usage memory_usage sample_count
      mip_levels array_layers tiling = Except.ok (img, calls)) :
    ∃ t, find_image_type extent = Except.ok t ∧
      0 < mip_levels ∧ 0 < array_layers ∧
      (alloc.create_image (mk_image_info t extent format image_usage sample_count
        mip_levels array_layers tiling) (mk_memory_info image_usage memory_usage)).1 = 0 ∧
      img = { handle := (alloc.create_image (mk_image_info t extent format image_usage
                sample_count mip_levels array_layers tiling)
                (mk_memory_info image_usage memory_usage)).2.1,
              memory := (alloc.create_image (mk_image_info t extent format image_usage
                sample_count mip_levels array_layers tiling)
                (mk_memory_info image_usage memory_usage)).2.2,
              type := t, extent := extent, format := format,
              sample_count := sample_count, usage := image_usage, tiling := tiling,
              subresource := { mipLevel := mip_levels, arrayLayer := array_layers },
              mapped_data := none, mapped := false, views := [] } ∧
      calls = [AllocCall.create_image (mk_image_info t extent format image_usage
                sample_count mip_levels array_layers tiling)
                (mk_memory_info image_usage memory_usage)] := by
  unfold Image.mk_owning at h
  split at h
  · exact absurd h (by simp)
  · rename_i t hft
    split at h
    · rename_i hml
      split at h
      · rename_i hal
        split at h
        rename_i r hh mm hci
        split at h
        · rename_i hr
          simp only [Except.ok.injEq, Prod.mk.injEq] at h
          obtain ⟨h1, h2⟩ := h
          refine ⟨t, hft, hml, hal, ?_, ?_, ?_⟩ <;> simp [hci, hr, ← h1, ← h2]
        · exact absurd h (by simp)
      · exact absurd h (by simp)
    · exact absurd h (by simp)

/-- Inversion for a successful adopting construction: the extent
classified and the resulting state and (empty) call trace are fully
determined. -/
theorem mk_adopted_ok_inv (handle : Option Nat) (extent : VkExtent3D)
    (format image_usage : Nat) (img : Image) (calls : List AllocCall)
    (h : Image.mk_adopted handle extent format image_usage = Except.ok (img, calls)) :
    ∃ t, find_image_type extent = Except.ok t ∧
      img = { handle := handle, memory := none, type := t, extent := extent,
              format := format, sample_count := VK_SAMPLE_COUNT_1_BIT,
              usage := image_usage, tiling := 0,
              subresource := { mipLevel := 1, arrayLayer := 1 },
              mapped_data := none, mapped := false, views := [] } ∧
      calls = [] := by
  unfold Image.mk_adopted at h
  split at h
  · exact absurd h (by simp)
  · rename_i t hft
    simp only [Except.ok.injEq, Prod.mk.injEq] at h
    exact ⟨t, hft, h.1.symm, h.2.symm⟩

/-- Inversion for a successful `map`: either the image was already mapped
and nothing changed with no allocator call, or it was unmapped and the
allocator's `map_memory` succeeded, mapping the image at the returned
pointer with exactly one allocator call. -/
theorem map_ok_inv (alloc : AllocatorModel) (img img' : Image) (p : Nat)
    (calls : List AllocCall)
    (h : Image.map alloc img = Except.ok (img', p, calls)) :
    (img.mapped_data = some p ∧ img' = img ∧ calls = []) ∨
    (img.mapped_data = none ∧ (alloc.map_memory img.memory).1 = 0 ∧
     img' = { img with mapped_data := some (alloc.map_memory img.memory).2,
                       mapped := true } ∧
     p = (alloc.map_memory img.memory).2 ∧
     calls = [AllocCall.map_memory img.memory]) := by
  unfold Image.map at h
  split at h
  · rename_i q hmd
    simp only [Except.ok.injEq, Prod.mk.injEq] at h
    exact Or.inl ⟨by rw [hmd, h.2.1], h.1.symm, h.2.2.symm⟩
  · rename_i hmd
    split at h
    rename_i r ptr hmm
    split at h
    · rename_i hr
      simp only [Except.ok.injEq, Prod.mk.injEq] at h
      exact Or.inr ⟨hmd, by simp [hmm, hr], by simp [hmm, ← h.1],
        by simp [hmm, ← h.2.1], h.2.2.symm⟩
    · exact absurd h (by simp)

/-- A successful `map` on an already-mapped image returns the stored
pointer with no allocator call. -/
theorem map_already_mapped (alloc : AllocatorModel) (img : Image) (p : Nat)
    (h : img.mapped_data = some p) :
    Image.map alloc img = Except.ok (img, p, []) := by
  simp [Image.map, h]

/-- Any number of `map` calls on an already-mapped image return the stored
pointer with no allocator call at all. -/
theorem mapN_already_mapped (alloc : AllocatorModel) (img : Image) (p : Nat)
    (h : img.mapped_data = some p) (n : Nat) :
    Image.mapN alloc img n = Except.ok (img, List.replicate n p, []) := by
  induction n with
  | zero => rfl
  | succ k ih =>
    simp [Image.mapN, map_already_mapped alloc img p h, ih, List.replicate_succ]

/-- C2: the invariant `mapped ⇒ allocation ≠ null` holds in every state
reachable through the exposed operations, provided the allocator's
`map_memory` does not succeed on the null allocation (mapping a null VMA
allocation cannot succeed; a failed map is fatal and yields no state). -/
theorem C2_mapped_implies_allocation (alloc : AllocatorModel)
    (halloc : (alloc.map_memory none).1 ≠ 0) (img : Image)
    (hr : Reachable alloc img) : img.mapped = true → img.memory ≠ none := by
  induction hr with
  | owning extent format image_usage memory_usage sample_count mip_levels
      array_layers tiling img calls h =>
    obtain ⟨t, -, -, -, -, himg, -⟩ :=
      mk_owning_ok_inv _ _ _ _ _ _ _ _ _ _ _ h
    subst himg
    intro hm
    simp at hm
  | adopted handle extent format image_usage img calls h =>
    obtain ⟨t, -, himg, -⟩ := mk_adopted_ok_inv _ _ _ _ _ _ h
    subst himg
    intro hm
    simp at hm
  | map_ok img img' p calls hR hmap ih =>
    rcases map_ok_inv alloc img img' p calls hmap with
      ⟨-, heq, -⟩ | ⟨-, hsucc, heq, -, -⟩
    · rw [heq]; exact ih
    · subst heq
      intro _ hnone
      have hnone' : img.memory = none := hnone
      rw [hnone'] at hsucc
      exact halloc hsucc
  | unmap_step img hR ih =>
    by_cases hm : img.mapped = true <;> simp [Image.unmap, hm]
  | move_dst img hR ih =>
    simpa [Image.moveCtor] using ih
  | move_src img hR ih =>
    simp [Image.moveCtor]
  | register img v hR ih =>
    unfold Image.registerView
    by_cases hv : v ∈ img.views <;> simp [hv] <;> exact ih
  | unregister img v hR ih =>
    simpa [Image.unregisterView] using ih

/-- The concrete owning image produced by `mk_owning` with `allocOk`
(handle 1, allocation 2, linear tiling), not yet mapped. -/
def imgOwned : Image :=
  { handle := some 1, memory := some 2, type := VkImageType.type_2d,
    extent := { width := 64, height := 64, depth := 1 }, format := 44,
    sample_count := 1, usage := 16, tiling := 1,
    subresource := { mipLevel := 1, arrayLayer := 1 },
    mapped_data := none, mapped := false, views := [] }

/-- State of `imgOwned` after a successful `map` through `allocOk` (pointer 99). -/
def imgMapped : Image := { imgOwned with mapped_data := some 99, mapped := true }

/-- Witness for C2: the concrete reachable mapped image has a non-null
allocation. -/
theorem C2_mapped_implies_allocation_witness : imgMapped.memory ≠ none :=
  C2_mapped_implies_allocation allocOk (by decide) imgMapped
    (Reachable.map_ok imgOwned imgMapped 99 [AllocCall.map_memory (some 2)]
      (Reachable.owning { width := 64, height := 64, depth := 1 } 44 16 1 1 1 1 1
        imgOwned
        [AllocCall.create_image
          (mk_image_info VkImageType.type_2d
            { width := 64, height := 64, depth := 1 } 44 16 1 1 1 1)
          (mk_memory_info 16 1)] rfl) rfl) rfl

/-- C6: `map()` is idempotent: `n + 1` consecutive calls with no
intervening `unmap()` all return the pointer obtained by the first call
and enter the allocator exactly once; the decision is taken on the
predicate `mapped_data ≠ null` (an image whose `mapped_data` is non-null
is returned unchanged with no allocator call, with no counting involved). -/
theorem C6_map_idempotent (alloc : AllocatorModel) (img : Image) (p : Nat) (n : Nat)
    (h0 : img.mapped_data = none) (hs : alloc.map_memory img.memory = (0, p)) :
    Image.mapN alloc img (n + 1) =
      Except.ok ({ img with mapped_data := some p, mapped := true },
        List.replicate (n + 1) p, [AllocCall.map_memory img.memory]) ∧
    (∀ (i : Image) (q : Nat), i.mapped_data = some q →
      Image.map alloc i = Except.ok (i, q, [])) := by
  constructor
  · have h1 : Image.map alloc img =
        Except.ok ({ img with mapped_data := some p, mapped := true }, p,
          [AllocCall.map_memory img.memory]) := by
      simp [Image.map, h0, hs]
    have h2 := mapN_already_mapped alloc
      { img with mapped_data := some p, mapped := true } p (by simp) n
    simp [Image.mapN, h1, h2, List.replicate_succ]
  · exact fun i q hq => map_already_mapped alloc i q hq

/-- Witness for C6: three consecutive maps of the concrete owning image
return pointer 99 each time with a single `map_memory` call. -/
theorem C6_map_idempotent_witness :
    Image.mapN allocOk imgOwned 3 =
      Except.ok (imgMapped, [99, 99, 99], [AllocCall.map_memory (some 2)]) := by
  have h := (C6_map_idempotent allocOk imgOwned 99 2 rfl rfl).1
  simpa [imgOwned, imgMapped] using h

/-- C7: owning construction fails by assertion when a mip-level or
array-layer count of zero is requested (once the extent classifies), fails
with `InvalidExtent` when the extent does not classify as 1D/2D/3D, and
surfaces an allocator refusal as a construction failure carrying the
allocator's underlying status code. -/
theorem C7_owning_failures (alloc : AllocatorModel) (extent : VkExtent3D)
    (format image_usage memory_usage sample_count mip_levels array_layers tiling : Nat) :
    (find_image_type extent = Except.error ImageError.invalidExtent →
      Image.mk_owning alloc extent format image_usage memory_usage sample_count
        mip_levels array_layers tiling = Except.error ImageError.invalidExtent) ∧
    (∀ t, find_image_type extent = Except.ok t →
      (mip_levels = 0 ∨ array_layers = 0) →
      Image.mk_owning alloc extent format image_usage memory_usage sample_count
        mip_levels array_layers tiling = Except.error ImageError.assertionFailure) ∧
    (∀ t, find_image_type extent = Except.ok t → 0 < mip_levels → 0 < array_layers →
      (alloc.create_image (mk_image_info t extent format image_usage sample_count
        mip_levels array_layers tiling) (mk_memory_info image_usage memory_usage)).1 ≠ 0 →
      Image.mk_owning alloc extent format image_usage memory_usage sample_count
        mip_levels array_layers tiling =
        Except.error (ImageError.allocationFailed
          (alloc.create_image (mk_image_info t extent format image_usage sample_count
            mip_levels array_layers tiling)
            (mk_memory_info image_usage memory_usage)).1)) := by
  refine ⟨?_, ?_, ?_⟩
  · intro hft
    simp [Image.mk_owning, hft]
  · intro t hft hzero
    rcases hzero with h0 | h0
    · simp [Image.mk_owning, hft, h0]
    · by_cases hml : 0 < mip_levels
      · simp [Image.mk_owning, hft, hml, h0]
      · simp [Image.mk_owning, hft, hml]
  · intro t hft hml hal hr
    unfold Image.mk_owning
    rcases hci : alloc.create_image (mk_image_info t extent format image_usage
        sample_count mip_levels array_layers tiling)
        (mk_memory_info image_usage memory_usage) with ⟨r, hh, mm⟩
    rw [hci] at hr
    simp only [ne_eq] at hr
    simp [hft, hml, hal, hci, hr]

/-- Witness for C7: with an allocator refusing with status -2, owning
construction of a 1024 x 1024 2D image fails carrying -2. -/
theorem C7_owning_failures_witness :
    Image.mk_owning allocFail { width := 1024, height := 1024, depth := 1 }
      44 16 0 1 1 1 0 = Except.error (ImageError.allocationFailed (-2)) :=
  (C7_owning_failures allocFail { width := 1024, height := 1024, depth := 1 }
    44 16 0 1 1 1 0).2.2 VkImageType.type_2d rfl (by decide) (by decide) (by decide)

/-- C8: the `memory_info` handed to the allocator's `create_image` during
a successful owning construction carries the lazily-allocated preferred
flag exactly when the requested usage contains the transient-attachment
bit, and no preference at all otherwise. -/
theorem C8_transient_lazy (alloc : AllocatorModel) (extent : VkExtent3D)
    (format image_usage memory_usage sample_count mip_levels array_layers tiling : Nat)
    (img : Image) (calls : List AllocCall)
    (h : Image.mk_owning alloc extent format image_usage memory_usage sample_count
      mip_levels array_layers tiling = Except.ok (img, calls)) :
    (∃ image_info, calls = [AllocCall.create_image image_info
        (mk_memory_info image_usage memory_usage)]) ∧
    ((mk_memory_info image_usage memory_usage).preferredFlags =
        VK_MEMORY_PROPERTY_LAZILY_ALLOCATED_BIT ↔
      image_usage &&& VK_IMAGE_USAGE_TRANSIENT_ATTACHMENT_BIT ≠ 0) ∧
    (image_usage &&& VK_IMAGE_USAGE_TRANSIENT_ATTACHMENT_BIT = 0 →
      (mk_memory_info image_usage memory_usage).preferredFlags = 0) := by
  obtain ⟨t, -, -, -, -, -, hcalls⟩ := mk_owning_ok_inv _ _ _ _ _ _ _ _ _ _ _ h
  refine ⟨⟨_, hcalls⟩, ?_, ?_⟩
  · by_cases hu : image_usage &&& VK_IMAGE_USAGE_TRANSIENT_ATTACHMENT_BIT = 0 <;>
      simp [mk_memory_info, VK_MEMORY_PROPERTY_LAZILY_ALLOCATED_BIT, hu]
  · intro hu
    simp [mk_memory_info, hu]

/-- Witness for C8: with the transient-attachment usage bit (0x40) set,
the preferred flags equal the lazily-allocated bit. -/
theorem C8_transient_lazy_witness :
    (mk_memory_info 64 1).preferredFlags = VK_MEMORY_PROPERTY_LAZILY_ALLOCATED_BIT ↔
      (64 : Nat) &&& VK_IMAGE_USAGE_TRANSIENT_ATTACHMENT_BIT ≠ 0 :=
  (C8_transient_lazy allocOk { width := 64, height := 64, depth := 1 }
    44 64 1 1 1 1 1 _ _ rfl).2.1

/-- C9: adopting construction records the given handle, leaves the
allocation token null, defaults `sample_count` to single-sample and the
subresource to (1, 1), makes no allocator call, and destruction of the
resulting borrowed resource issues no allocator call either. -/
theorem C9_adopting (handle : Option Nat) (extent : VkExtent3D)
    (format image_usage : Nat) (img : Image) (calls : List AllocCall)
    (h : Image.mk_adopted handle extent format image_usage = Except.ok (img, calls)) :
    img.handle = handle ∧ img.memory = none ∧
    img.sample_count = VK_SAMPLE_COUNT_1_BIT ∧
    img.subresource = { mipLevel := 1, arrayLayer := 1 } ∧
    calls = [] ∧ Image.destructor img = [] := by
  obtain ⟨t, hft, himg, hcalls⟩ := mk_adopted_ok_inv _ _ _ _ _ _ h
  subst himg
  exact ⟨rfl, rfl, rfl, rfl, hcalls, by simp [Image.destructor]⟩

/-- The borrowed image obtained by adopting handle 7 with a
1920 x 1080 extent. -/
def imgAdopted : Image :=
  { handle := some 7, memory := none, type := VkImageType.type_2d,
    extent := { width := 1920, height := 1080, depth := 1 }, format := 50,
    sample_count := 1, usage := 16, tiling := 0,
    subresource := { mipLevel := 1, arrayLayer := 1 },
    mapped_data := none, mapped := false, views := [] }

/-- Witness for C9 at the concrete adopted image. -/
theorem C9_adopting_witness :
    imgAdopted.handle = some 7 ∧ imgAdopted.memory = none ∧
    imgAdopted.sample_count = VK_SAMPLE_COUNT_1_BIT ∧
    imgAdopted.subresource = { mipLevel := 1, arrayLayer := 1 } ∧
    ([] : List AllocCall) = [] ∧ Image.destructor imgAdopted = [] :=
  C9_adopting (some 7) { width := 1920, height := 1080, depth := 1 } 50 16
    imgAdopted [] rfl

/-- C10: adopting construction classifies its extent with the same rule as
owning construction: an unclassifiable extent yields the very same
`InvalidExtent` failure (even though adoption performs no allocation),
and for a classifiable extent the adopted image's type is the inferred
one, with no allocator call. -/
theorem C10_adopted_classifies (handle : Option Nat) (extent : VkExtent3D)
    (format image_usage : Nat) :
    (find_image_type extent = Except.error ImageError.invalidExtent →
      Image.mk_adopted handle extent format image_usage =
        Except.error ImageError.invalidExtent) ∧
    (∀ (alloc : AllocatorModel) (memory_usage sample_count mip_levels
        array_layers tiling : Nat),
      find_image_type extent = Except.error ImageError.invalidExtent →
      Image.mk_adopted handle extent format image_usage =
        Image.mk_owning alloc extent format image_usage memory_usage sample_count
          mip_levels array_layers tiling) ∧
    (∀ t, find_image_type extent = Except.ok t →
      ∃ img, Image.mk_adopted handle extent format image_usage =
        Except.ok (img, []) ∧ img.type = t) := by
  refine ⟨?_, ?_, ?_⟩
  · intro hft
    simp [Image.mk_adopted, hft]
  · intro alloc memory_usage sample_count mip_levels array_layers tiling hft
    simp [Image.mk_adopted, Image.mk_owning, hft]
  · intro t hft
    exact ⟨{ handle := handle, memory := none, type := t, extent := extent,
             format := format, sample_count := VK_SAMPLE_COUNT_1_BIT,
             usage := image_usage, tiling := 0,
             subresource := { mipLevel := 1, arrayLayer := 1 },
             mapped_data := none, mapped := false, views := [] },
           by simp [Image.mk_adopted, hft], rfl⟩

/-- Witness for C10: adopting a handle with the extent (0, 0, 0) fails
with `InvalidExtent`. -/
theorem C10_adopted_classifies_witness :
    Image.mk_adopted (some 7) { width := 0, height := 0, depth := 0 } 50 16 =
      Except.error ImageError.invalidExtent :=
  (C10_adopted_classifies (some 7) { width := 0, height := 0, depth := 0 } 50 16).1 rfl

end VkbImage

